import Mathlib

/-!
Shallow embedding of `infoblox_client/connector.py` (class `Connector`):
configuration resolution, URL construction, object-type validation,
the WAPI version gate, and the five request operations (get, create,
call, update, delete) with their response interpretation.

External collaborators (the HTTP transport, JSON codec, logging) are
abstracted: a network is a function from URL to response, JSON bodies
are modelled as already-tokenized content that is either a JSON value
or invalid bytes, and the stdlib URL helpers (`quote`, `urlencode`,
`urljoin`) are given executable models at the level of detail the
connector relies on.
-/

set_option autoImplicit false
set_option linter.unusedVariables false

namespace Infoblox

/-- A Python value as it appears in the loosely-typed options source and as
an argument to `is_cloud_wapi`: a string, a boolean, or an integer. -/
inductive PyVal where
  | vstr (s : String)
  | vbool (b : Bool)
  | vint (n : Int)
  deriving DecidableEq, Repr

/-- Python truthiness for `PyVal` (`if not getattr(self, attr)` etc.). -/
def PyVal.truthy : PyVal → Bool
  | .vstr s => !(s == "")
  | .vbool b => b
  | .vint n => !(n == 0)

/-- Python `"%s" % v` string conversion for the values above. -/
def PyVal.toPyStr : PyVal → String
  | .vstr s => s
  | .vbool b => if b then "True" else "False"
  | .vint n => toString n

/-- A parsed JSON value (what `jsonutils.loads` produces on success). -/
inductive JSON where
  | null
  | bool (b : Bool)
  | num (n : Int)
  | str (s : String)
  | arr (l : List JSON)
  | obj (kvs : List (String × JSON))

/-- Python truthiness of a parsed JSON value (`if ib_object:` and
`if response and ...`). -/
def JSON.truthy : JSON → Bool
  | .null => false
  | .bool b => b
  | .num n => !(n == 0)
  | .str s => !(s == "")
  | .arr l => !l.isEmpty
  | .obj kvs => !kvs.isEmpty

/-- Python `dict.get key` on a JSON object: first binding of `key`, if any. -/
def JSON.get (key : String) : JSON → Option JSON
  | .obj kvs => (kvs.find? (fun kv => kv.1 == key)).map Prod.snd
  | _ => none

/-- Raw HTTP response content: either bytes that decode to a JSON value or
bytes that are not valid JSON (identified by the raw text). -/
inductive Content where
  | json (j : JSON)
  | invalid (raw : String)

/-- The exceptions the connector can raise.  `valueError`,
`attributeError` and `typeError` model the builtin Python exceptions;
the rest model the `infoblox_client.exceptions` classes, carrying the
fields the call sites in `connector.py` pass. -/
inductive IbErr where
  | valueError (msg : String)
  | jsonDecodeError (raw : String)
  | attributeError (msg : String)
  | typeError (msg : String)
  | configError (msg : String)
  | authError
  | connectionError (reason : Content)
  | searchError (response : JSON) (objType : String) (content : Content) (code : Nat)
  | memberAlreadyAssigned (response : Option JSON) (objType : String)
      (content : Content) (args : JSON) (code : Nat)
  | cannotCreate (response : Option JSON) (objType : String)
      (content : Content) (args : JSON) (code : Nat)
  | funcCallError (response : JSON) (ref : String) (funcName : String)
      (content : Content) (code : Nat)
  | cannotUpdate (response : JSON) (ref : String) (content : Content) (code : Nat)
  | cannotDelete (response : JSON) (ref : String) (content : Content) (code : Nat)

/-- An HTTP response: status code plus raw content. -/
structure HttpResp where
  status : Nat
  content : Content

/-- The transport: a deterministic map from request URL to the response
the appliance gives.  (Each operation issues requests one by one; the
URLs actually requested are returned explicitly where a claim needs
them.) -/
def Net : Type := String → HttpResp

/-- Value of `requests.codes.ok`. -/
def codes_ok : Nat := 200
/-- Value of `requests.codes.CREATED`. -/
def codes_CREATED : Nat := 201
/-- Value of `requests.codes.UNAUTHORIZED`. -/
def codes_UNAUTHORIZED : Nat := 401

/-- Constant `CLOUD_WAPI_MAJOR_VERSION = 2` from the module. -/
def CLOUD_WAPI_MAJOR_VERSION : Nat := 2

/-- Model of `jsonutils.loads`: decode raw content, raising `ValueError` (modelled
as `jsonDecodeError`) when the content is not valid JSON. -/
def jsonLoads : Content → Except IbErr JSON
  | .json j => .ok j
  | .invalid raw => .error (.jsonDecodeError raw)

/-- Modelled from the spec: `utils.safe_json_load` (module
`infoblox_client/utils.py`, not under `src/`) is the "safely-parsed body
or none" parse used by `create_object` — it returns the decoded JSON
value, or `None` when the body cannot be decoded. -/
def safe_json_load : Content → Option JSON
  | .json j => some j
  | .invalid _ => none

/-! ### Stdlib URL helpers (`urllib`), modelled executably -/

/-- UTF-8 encoding of one character, as byte values. -/
def utf8Bytes (c : Char) : List Nat :=
  let n := c.toNat
  if n < 0x80 then [n]
  else if n < 0x800 then [0xC0 + n / 0x40, 0x80 + n % 0x40]
  else if n < 0x10000 then
    [0xE0 + n / 0x1000, 0x80 + (n / 0x40) % 0x40, 0x80 + n % 0x40]
  else
    [0xF0 + n / 0x40000, 0x80 + (n / 0x1000) % 0x40,
     0x80 + (n / 0x40) % 0x40, 0x80 + n % 0x40]

/-- Upper-case hex digit. -/
def hexDigit (n : Nat) : Char := "0123456789ABCDEF".toList.getD n '0'

/-- Percent escape `%XX` of one byte. -/
def percentByte (b : Nat) : String :=
  String.mk ['%', hexDigit (b / 16), hexDigit (b % 16)]

/-- The characters `urllib` never quotes: ASCII alphanumerics and `_.-~`. -/
def isUnreserved (c : Char) : Bool :=
  c.isAlphanum || c == '_' || c == '.' || c == '-' || c == '~'

/-- Model of `urllib.parse.quote` with its default `safe='/'`. -/
def quote (s : String) : String :=
  String.join (s.toList.map fun c =>
    if isUnreserved c || c == '/' then String.mk [c]
    else String.join ((utf8Bytes c).map percentByte))

/-- Model of `urllib.parse.quote_plus` (`safe=''`, space encoded as `+`). -/
def quote_plus (s : String) : String :=
  String.join (s.toList.map fun c =>
    if isUnreserved c then String.mk [c]
    else if c == ' ' then "+"
    else String.join ((utf8Bytes c).map percentByte))

/-- Python `sep.join(items)`. -/
def joinSep (sep : String) : List String → String
  | [] => ""
  | [x] => x
  | x :: xs => x ++ sep ++ joinSep sep xs

/-- Model of `urllib.parse.urlencode` on a dict of strings (insertion order). -/
def urlencode (qp : List (String × String)) : String :=
  joinSep "&" (qp.map fun kv => quote_plus kv.1 ++ "=" ++ quote_plus kv.2)

/-- Whether the first list is a prefix of the second. -/
def startsWithChars : List Char → List Char → Bool
  | [], _ => true
  | _ :: _, [] => false
  | a :: as, b :: bs => a == b && startsWithChars as bs

/-- Whether `needle` occurs as a contiguous run in the second list. -/
def hasSubstrChars (needle : List Char) : List Char → Bool
  | [] => startsWithChars needle []
  | b :: bs => startsWithChars needle (b :: bs) || hasSubstrChars needle bs

/-- Python substring test `needle in s`. -/
def hasSubstr (s needle : String) : Bool :=
  hasSubstrChars needle.toList s.toList

/-- Python `s.split(c)` on characters (`"".split(c) = ['']`). -/
def splitChar (c : Char) : List Char → List (List Char)
  | [] => [[]]
  | x :: xs =>
    match splitChar c xs with
    | [] => [[]]
    | h :: t => if x == c then [] :: h :: t else (x :: h) :: t

/-- Drop empty path segments but always keep the final one
(`segments[1:-1] = filter(None, segments[1:-1])`, applied to the tail). -/
def keepLastFilterEmpty : List (List Char) → List (List Char)
  | [] => []
  | [x] => [x]
  | x :: xs =>
    if x.isEmpty then keepLastFilterEmpty xs else x :: keepLastFilterEmpty xs

/-- Keep the first and last segments, drop empty interior segments. -/
def filterInteriorEmpty : List (List Char) → List (List Char)
  | [] => []
  | [x] => [x]
  | x :: xs => x :: keepLastFilterEmpty xs

/-- The dot-segment resolution loop of `urljoin`: `'..'` pops (a pop on
an empty stack is ignored), `'.'` is skipped, anything else is kept. -/
def removeDotSegments (segments : List (List Char)) : List (List Char) :=
  segments.foldl
    (fun acc seg =>
      if seg = ['.', '.'] then acc.dropLast
      else if seg = ['.'] then acc
      else acc ++ [seg]) []

/-- Model of `urlparse.urljoin` on the connector's inputs.  The second
argument is a percent-quoted relative path: non-empty, no leading `/`
(both enforced by `_construct_url`), and no scheme, authority, params,
query or fragment, since `quote` escapes `:`, `?`, `#` and `;`.  The
base is either an `https://…` URL — the connector's `wapi_url` is always
`https://{host}/wapi/v{version}/` — handled as scheme and authority
followed by a path (query/fragment parts of the base are dropped, as the
relative reference replaces them), or a plain path (no `://`), handled
as CPython does a scheme-less base; other base shapes are outside the
model.  The path merge follows CPython: the base path loses its last
segment unless empty, the combined segments lose empty interior
segments, `.`/`..` are resolved with a forgiving pop, a trailing
`.`/`..` re-appends the final slash, an empty result path becomes `/`,
and (as in `urlunsplit`) a path that lost its leading slash gets it back
when an authority is present. -/
def urljoin (base rel : String) : String :=
  if base = "" then rel
  else if rel = "" then base
  else
    let (root, bpath) :=
      if startsWithChars "https://".toList base.toList then
        let after := base.toList.drop 8
        let netloc := after.takeWhile fun c => !(c == '/' || c == '?' || c == '#')
        let rest := after.drop netloc.length
        let bpath := rest.takeWhile fun c => !(c == '?' || c == '#')
        ("https://" ++ String.mk netloc, bpath)
      else ("", base.toList)
    let baseParts := splitChar '/' bpath
    let baseParts :=
      if baseParts.getLast? = some [] then baseParts else baseParts.dropLast
    let segments := filterInteriorEmpty (baseParts ++ splitChar '/' rel.toList)
    let resolved := removeDotSegments segments
    let resolved :=
      if segments.getLast? = some ['.'] ∨ segments.getLast? = some ['.', '.']
      then resolved ++ [[]]
      else resolved
    let path := joinSep "/" (resolved.map String.mk)
    let path := if path = "" then "/" else path
    let path :=
      if root = "" then path
      else if startsWithChars ['/'] path.toList then path
      else "/" ++ path
    root ++ path

/-- Python dict assignment `d[k] = v` on an insertion-ordered dict:
overwrite in place if the key exists, else append. -/
def dictInsert (d : List (String × String)) (k v : String) :
    List (String × String) :=
  if d.any (fun kv => kv.1 == k) then
    d.map (fun kv => if kv.1 == k then (k, v) else kv)
  else d ++ [(k, v)]

/-! ### `Connector` static helpers -/

/-- Embedding of `Connector._validate_obj_type_or_die`. -/
def _validate_obj_type_or_die (obj_type : String)
    (obj_type_expected : Bool := true) : Except IbErr Unit :=
  if obj_type = "" then
    .error (.valueError "NIOS object type cannot be empty.")
  else if obj_type_expected && obj_type.toList.contains '/' then
    .error (.valueError "NIOS object type cannot contain slash.")
  else .ok ()

/-- Embedding of `Connector._validate_authorized`: 401 raises
`InfobloxBadWAPICredential` (modelled as `authError`). -/
def _validate_authorized (r : HttpResp) : Except IbErr Unit :=
  if r.status == codes_UNAUTHORIZED then .error .authError else .ok ()

/-- Embedding of `Connector._build_query_params`.  The `payload`/`return_fields` are
optional; Python tests their truthiness (`None` and empty both falsy). -/
def _build_query_params (payload : Option (List (String × String)) := none)
    (return_fields : Option (List String) := none) : List (String × String) :=
  let query_params :=
    match payload with
    | some p => if !p.isEmpty then p else []
    | none => []
  match return_fields with
  | some rf =>
      if !rf.isEmpty then
        dictInsert query_params "_return_fields" (joinSep "," rf)
      else query_params
  | none => query_params

/-- Embedding of `Connector._parse_reply`: JSON-decode the body; a body that is not
valid JSON raises `InfobloxConnectionError` with the raw content as the
reason. -/
def _parse_reply (r : HttpResp) : Except IbErr JSON :=
  match jsonLoads r.content with
  | .ok j => .ok j
  | .error _ => .error (.connectionError r.content)

/-- Embedding of `Connector._construct_url`.  The `extattrs` entries are `(name, value)`
pairs, the second component being the descriptor's `value` field read by
`value['value']` in the source. -/
def _construct_url (wapi_url : String) (relative_path : String)
    (query_params : List (String × String) := [])
    (extattrs : List (String × String) := [])
    (force_proxy : Bool := false) : Except IbErr String :=
  let query_params :=
    if force_proxy then dictInsert query_params "_proxy_search" "GM"
    else query_params
  if relative_path = "" ∨ relative_path.front = '/' then
    .error (.valueError "Path in request must be relative.")
  else
    let query := if !query_params.isEmpty || !extattrs.isEmpty then "?" else ""
    let query :=
      if !extattrs.isEmpty then
        query ++ joinSep "&"
          (extattrs.map fun kv => "*" ++ kv.1 ++ "=" ++ kv.2)
      else query
    let query :=
      if !query_params.isEmpty then
        (if query.length > 1 then query ++ "&" else query)
          ++ urlencode query_params
      else query
    .ok (urljoin wapi_url (quote relative_path) ++ query)

/-! ### WAPI version gate -/

/-- Decimal value of a digit run (`int(version_match.group(1))`). -/
def natOfDigits (ds : List Char) : Nat :=
  ds.foldl (fun n c => n * 10 + (c.toNat - '0'.toNat)) 0

/-- One attempt of `re.search('(\d+)\.(\d+)', ·)` at the current
position: the greedy digit run must be followed by `'.'` and a digit;
on success the run is capture group 1. -/
def versionMatchAt (cs : List Char) : Option (List Char) :=
  match cs.dropWhile Char.isDigit with
  | d1 :: d2 :: _ =>
      if d1 == '.' && d2.isDigit then some (cs.takeWhile Char.isDigit) else none
  | _ => none

/-- Model of `re.search('(\d+)\.(\d+)', ·)`: leftmost match, returning capture
group 1 (the digits before the dot). -/
def findVersionMatch : List Char → Option (List Char)
  | [] => none
  | c :: rest =>
    if c.isDigit then
      match versionMatchAt (c :: rest) with
      | some g => some g
      | none => findVersionMatch rest
    else findVersionMatch rest

/-- Embedding of `Connector.is_cloud_wapi`.  Here `valid = wapi_version and
isinstance(wapi_version, six.string_types)` holds exactly for non-empty
strings; anything else raises `ValueError`.  Cloud capability is
`int(group(1)) >= CLOUD_WAPI_MAJOR_VERSION` for the first
`major.minor` match, `False` when there is no match. -/
def is_cloud_wapi (wapi_version : PyVal) : Except IbErr Bool :=
  match wapi_version with
  | .vstr s =>
    if s = "" then .error (.valueError "Invalid argument was passed")
    else
      match findVersionMatch s.toList with
      | some g =>
          if natOfDigits g ≥ CLOUD_WAPI_MAJOR_VERSION then .ok true else .ok false
      | none => .ok false
  | _ => .error (.valueError "Invalid argument was passed")

/-! ### Configuration resolution (`Connector._parse_options`) -/

/-- Embedding of `Connector.DEFAULT_OPTIONS`. -/
def DEFAULT_OPTIONS : List (String × PyVal) :=
  [("ssl_verify", .vbool false),
   ("silent_ssl_warnings", .vbool false),
   ("http_request_timeout", .vint 10),
   ("http_pool_connections", .vint 10),
   ("http_pool_maxsize", .vint 10),
   ("wapi_version", .vstr "1.4"),
   ("log_api_calls_as_info", .vbool false)]

/-- The loosely-typed options source.  The source's two probes (`attr in
options` for dicts, `hasattr(options, attr)` for objects) are one lookup
here: `some v` when the source provides `attr`. -/
def Options : Type := String → Option PyVal

/-- One iteration of the resolution loop in `_parse_options`: the
source's value if present, else the fixed default, else
`InfobloxConfigException` naming the option. -/
def resolve_option (options : Options) (attr : String) : Except IbErr PyVal :=
  match options attr with
  | some v => .ok v
  | none =>
    match (DEFAULT_OPTIONS.find? (fun kv => kv.1 == attr)).map Prod.snd with
    | some v => .ok v
    | none =>
        .error (.configError
          ("WAPI config error. Option " ++ attr ++ " is not defined"))

/-- The state `_parse_options` leaves on `self`. -/
structure Config where
  host : PyVal
  wapi_version : PyVal
  username : PyVal
  password : PyVal
  ssl_verify : PyVal
  http_request_timeout : PyVal
  http_pool_connections : PyVal
  http_pool_maxsize : PyVal
  silent_ssl_warnings : PyVal
  log_api_calls_as_info : PyVal
  wapi_url : String
  cloud_api_enabled : Bool

/-- Embedding of `Connector._parse_options`: resolve each attribute in the source's
tuple order, then reject blank `host`/`username`/`password`, then derive
`wapi_url` and `cloud_api_enabled`. -/
def _parse_options (options : Options) : Except IbErr Config := do
  let host ← resolve_option options "host"
  let wapi_version ← resolve_option options "wapi_version"
  let username ← resolve_option options "username"
  let password ← resolve_option options "password"
  let ssl_verify ← resolve_option options "ssl_verify"
  let http_request_timeout ← resolve_option options "http_request_timeout"
  let http_pool_connections ← resolve_option options "http_pool_connections"
  let http_pool_maxsize ← resolve_option options "http_pool_maxsize"
  let silent_ssl_warnings ← resolve_option options "silent_ssl_warnings"
  let log_api_calls_as_info ← resolve_option options "log_api_calls_as_info"
  if !host.truthy then
    throw (.configError "WAPI config error. Option host can not be blank")
  else if !username.truthy then
    throw (.configError "WAPI config error. Option username can not be blank")
  else if !password.truthy then
    throw (.configError "WAPI config error. Option password can not be blank")
  else
    let wapi_url :=
      "https://" ++ host.toPyStr ++ "/wapi/v" ++ wapi_version.toPyStr ++ "/"
    let cloud_api_enabled ← is_cloud_wapi wapi_version
    return { host, wapi_version, username, password, ssl_verify,
             http_request_timeout, http_pool_connections, http_pool_maxsize,
             silent_ssl_warnings, log_api_calls_as_info, wapi_url,
             cloud_api_enabled }

/-! ### The five operations -/

/-- Embedding of `Connector._get_object`: one GET; 401 raises `authError`; any other
non-200 decodes the body (a decode failure propagates) and raises
`InfobloxSearchError` with the decoded body; a 200 body is parsed by
`_parse_reply`. -/
def _get_object (net : Net) (obj_type url : String) : Except IbErr JSON := do
  let r := net url
  _validate_authorized r
  if r.status ≠ codes_ok then
    let response ← jsonLoads r.content
    throw (.searchError response obj_type r.content r.status)
  else
    _parse_reply r

/-- Embedding of `Connector.get_object`: the two-phase cloud-proxy get.  Returns the
list of URLs requested, in order, together with the Python return value
(`some` a truthy parsed object, or `none` for the final `return None`). -/
def get_object (cloud_api_enabled : Bool) (wapi_url : String) (net : Net)
    (obj_type : String) (payload : Option (List (String × String)) := none)
    (return_fields : Option (List String) := none)
    (extattrs : List (String × String) := []) (force_proxy : Bool := false) :
    List String × Except IbErr (Option JSON) :=
  match _validate_obj_type_or_die obj_type false with
  | .error e => ([], .error e)
  | .ok _ =>
    let query_params := _build_query_params payload return_fields
    let proxy_flag := cloud_api_enabled && force_proxy
    match _construct_url wapi_url obj_type query_params extattrs proxy_flag with
    | .error e => ([], .error e)
    | .ok url =>
      match _get_object net obj_type url with
      | .error e => ([url], .error e)
      | .ok ib_object =>
        if ib_object.truthy then ([url], .ok (some ib_object))
        else if cloud_api_enabled && !force_proxy then
          match _construct_url wapi_url obj_type query_params extattrs true with
          | .error e => ([url], .error e)
          | .ok url2 =>
            match _get_object net obj_type url2 with
            | .error e => ([url, url2], .error e)
            | .ok ib2 =>
              if ib2.truthy then ([url, url2], .ok (some ib2))
              else ([url, url2], .ok none)
        else ([url], .ok none)

/-- The test `response and already_assigned in response.get('text')` in
`create_object`: a falsy parse short-circuits to `False`; a truthy
non-dict body has no `.get` (`AttributeError`); a missing `text` key
gives `None` and `needle in None` is a `TypeError`; a string `text` is a
substring test; a list or dict `text` is a membership test; any other
`text` value is not iterable (`TypeError`). -/
def already_assigned_check (needle : String) (response : Option JSON) :
    Except IbErr Bool :=
  match response with
  | none => .ok false
  | some j =>
    if !j.truthy then .ok false
    else
      match j with
      | .obj kvs =>
        match JSON.get "text" (.obj kvs) with
        | none => .error (.typeError "argument of type NoneType is not iterable")
        | some (.str s) => .ok (hasSubstr s needle)
        | some (.arr l) =>
            .ok (l.any fun e => match e with | .str t => t == needle | _ => false)
        | some (.obj kvs2) => .ok (kvs2.any fun kv => kv.1 == needle)
        | some _ => .error (.typeError "argument of type is not iterable")
      | _ => .error (.attributeError "object has no attribute get")

/-- Embedding of `Connector.create_object`: POST; 401 raises `authError`; a non-201
response is classified by `already_assigned_check` into
`InfobloxMemberAlreadyAssigned` or `InfobloxCannotCreateObject`, both
carrying the safely-parsed body, the object type, the raw content, the
payload and the status; a 201 body is parsed by `_parse_reply`. -/
def create_object (wapi_url : String) (net : Net) (obj_type : String)
    (payload : JSON) (return_fields : Option (List String) := none) :
    Except IbErr JSON := do
  _validate_obj_type_or_die obj_type
  let query_params := _build_query_params none return_fields
  let url ← _construct_url wapi_url obj_type query_params
  let r := net url
  _validate_authorized r
  if r.status ≠ codes_CREATED then
    let response := safe_json_load r.content
    let assigned ←
      already_assigned_check "is assigned to another network view" response
    if assigned then
      throw (.memberAlreadyAssigned response obj_type r.content payload r.status)
    else
      throw (.cannotCreate response obj_type r.content payload r.status)
  else
    _parse_reply r

/-- Embedding of `Connector.call_func`: POST with `_function={name}`; 401 raises
`authError`; a status outside {201, 200} decodes the body (a decode
failure propagates) and raises `InfobloxFuncException`; otherwise the
body is parsed by `_parse_reply`. -/
def call_func (wapi_url : String) (net : Net) (func_name ref : String)
    (payload : JSON) (return_fields : Option (List String) := none) :
    Except IbErr JSON := do
  let query_params := _build_query_params none return_fields
  let query_params := dictInsert query_params "_function" func_name
  let url ← _construct_url wapi_url ref query_params
  let r := net url
  _validate_authorized r
  if !(r.status == codes_CREATED || r.status == codes_ok) then
    let response ← jsonLoads r.content
    throw (.funcCallError response ref func_name r.content r.status)
  else
    _parse_reply r

/-- Embedding of `Connector.update_object`: PUT; 401 raises `authError`; any other
non-200 decodes the body (a decode failure propagates) and raises
`InfobloxCannotUpdateObject`; a 200 body is parsed by `_parse_reply`. -/
def update_object (wapi_url : String) (net : Net) (ref : String)
    (payload : JSON) (return_fields : Option (List String) := none) :
    Except IbErr JSON := do
  let query_params := _build_query_params none return_fields
  let url ← _construct_url wapi_url ref query_params
  let r := net url
  _validate_authorized r
  if r.status ≠ codes_ok then
    let response ← jsonLoads r.content
    throw (.cannotUpdate response ref r.content r.status)
  else
    _parse_reply r

/-- Embedding of `Connector.delete_object`: DELETE; 401 raises `authError`; any other
non-200 decodes the body (a decode failure propagates) and raises
`InfobloxCannotDeleteObject`; a 200 body is parsed by `_parse_reply`. -/
def delete_object (wapi_url : String) (net : Net) (ref : String) :
    Except IbErr JSON := do
  let url ← _construct_url wapi_url ref
  let r := net url
  _validate_authorized r
  if r.status ≠ codes_ok then
    let response ← jsonLoads r.content
    throw (.cannotDelete response ref r.content r.status)
  else
    _parse_reply r

/-! ### Spec-side descriptions and concrete inputs used by the theorems -/

/-- A `(\d+)\.(\d+)` match exists somewhere: some digit is immediately
followed by a dot and another digit. -/
def hasVersionPattern (cs : List Char) : Prop :=
  ∃ pre c d suf, cs = pre ++ c :: '.' :: d :: suf ∧
    c.isDigit = true ∧ d.isDigit = true

/-- The query string as the spec describes it: when `force_proxy` is
set, `_proxy_search=GM` joins the ordinary parameters before encoding;
the extensible-attribute segment (entries rendered `*key=value`, joined
by `&`) follows the leading `?` and always precedes the percent-encoded
ordinary-parameter segment; the two segments are joined by `&` exactly
when both are non-empty. -/
def querySpec (query_params extattrs : List (String × String))
    (force_proxy : Bool) : String :=
  let qp :=
    if force_proxy then dictInsert query_params "_proxy_search" "GM"
    else query_params
  let extSeg := joinSep "&" (extattrs.map fun kv => "*" ++ kv.1 ++ "=" ++ kv.2)
  if qp.isEmpty && extattrs.isEmpty then ""
  else
    "?" ++ extSeg ++ (if !qp.isEmpty && !extattrs.isEmpty then "&" else "")
      ++ urlencode qp

/-- An options source with a blank password (for the blank-check part of
the configuration claim). -/
def optsBlankPwd : Options := fun attr =>
  if attr = "host" then some (.vstr "h")
  else if attr = "username" then some (.vstr "a")
  else if attr = "password" then some (.vstr "")
  else none

/-- An options source that provides nothing, so the first required
option (`host`) is reported missing. -/
def optsMissingHost : Options := fun _ => none

/-- A fully explicit options source for the configuration success case. -/
def optsFull : Options := fun attr =>
  if attr = "host" then some (.vstr "nios.example.com")
  else if attr = "username" then some (.vstr "a")
  else if attr = "password" then some (.vstr "b")
  else if attr = "wapi_version" then some (.vstr "2.5")
  else none

/-- A network that answers the proxied get URL with one object and every
other URL with an empty list (both with status 200). -/
def netRetry : Net := fun u =>
  if u = "https://nios.example.com/wapi/v2.5/network?_proxy_search=GM" then
    ⟨200, .json (.arr [.str "ref"])⟩
  else ⟨200, .json (.arr [])⟩

/-- A network that always answers 401. -/
def net401 : Net := fun _ => ⟨401, .json .null⟩

/-- A network that always answers 200 with a body that is not JSON. -/
def net200bad : Net := fun _ => ⟨200, .invalid "<html>oops</html>"⟩

/-- A network that always answers 201 with a body that is not JSON. -/
def net201bad : Net := fun _ => ⟨201, .invalid "<html>oops</html>"⟩

/-- A network that always answers 404 with a JSON error body. -/
def net404json : Net := fun _ => ⟨404, .json (.obj [("text", .str "not found")])⟩

/-- A network that always answers 404 with a body that is not JSON. -/
def net404bad : Net := fun _ => ⟨404, .invalid "<html>dead</html>"⟩

/-- A network whose 400 JSON error body carries the member-already-assigned
message in its `text` field. -/
def netMember : Net := fun _ =>
  ⟨400, .json (.obj [("text",
    .str "Member 10.0.0.1 is assigned to another network view (default)")])⟩

/-- A network whose 400 JSON error body lacks a `text` field. -/
def netNoText : Net := fun _ =>
  ⟨400, .json (.obj [("code", .str "Client.Ibap.Proto")])⟩

/-- Whether a result is the `InfobloxCannotCreateObject` error. -/
def isCannotCreate : Except IbErr JSON → Bool
  | .error (.cannotCreate _ _ _ _ _) => true
  | _ => false

/-! ## Helper lemmas -/

theorem except_bind_ok {α β : Type} (x : Except IbErr α) (f : α → Except IbErr β)
    (b : β) : (x >>= f) = .ok b ↔ ∃ a, x = .ok a ∧ f a = .ok b := by
  cases x <;> simp [Bind.bind, Except.bind]

theorem throw_eq {α : Type} (e : IbErr) :
    (throw e : Except IbErr α) = Except.error e := rfl

theorem pure_eq {α : Type} (a : α) :
    (pure a : Except IbErr α) = Except.ok a := rfl

/-! ## C8 — object-type validation -/

/-- C8: `_validate_obj_type_or_die` raises `ValueError` for every empty
`obj_type` regardless of `obj_type_expected`; when `obj_type_expected`
is true it also raises for every `obj_type` containing `'/'`; and every
non-empty `obj_type` passes when `obj_type_expected` is false. -/
theorem validate_obj_type_spec (obj_type : String) (expect : Bool) :
    (obj_type = "" →
      _validate_obj_type_or_die obj_type expect =
        .error (.valueError "NIOS object type cannot be empty.")) ∧
    (expect = true → obj_type.toList.contains '/' = true →
      ∃ m, _validate_obj_type_or_die obj_type expect = .error (.valueError m)) ∧
    (obj_type ≠ "" → _validate_obj_type_or_die obj_type false = .ok ()) := by
  refine ⟨?_, ?_, ?_⟩
  · intro h
    simp [_validate_obj_type_or_die, h]
  · intro he hc
    by_cases h0 : obj_type = ""
    · exact ⟨"NIOS object type cannot be empty.",
        by simp [_validate_obj_type_or_die, h0]⟩
    · have hc' : '/' ∈ obj_type.data := by simpa using hc
      exact ⟨"NIOS object type cannot contain slash.",
        by simp [_validate_obj_type_or_die, h0, he, hc']⟩
  · intro h0
    simp [_validate_obj_type_or_die, h0]

/-- Witness for C8 at `"net/work"` and `""`. -/
theorem validate_obj_type_spec_witness :
    (∃ m, _validate_obj_type_or_die "net/work" true = .error (.valueError m)) ∧
    _validate_obj_type_or_die "net/work" false = .ok () ∧
    _validate_obj_type_or_die "" true =
      .error (.valueError "NIOS object type cannot be empty.") :=
  ⟨(validate_obj_type_spec "net/work" true).2.1 rfl (by decide),
   (validate_obj_type_spec "net/work" false).2.2 (by decide),
   (validate_obj_type_spec "" true).1 rfl⟩

/-! ## C5 — WAPI version gate -/

/-- C5: `is_cloud_wapi` raises `ValueError` when the argument is the
empty string or not a string; on any other string it returns `True` iff
the first `(\d+)\.(\d+)` match exists and its major group is at least
`CLOUD_WAPI_MAJOR_VERSION = 2`; in particular `"2.5"` gives `True` and
`"1.4"` gives `False`. -/
theorem is_cloud_wapi_spec :
    (∀ s : String, s ≠ "" →
      is_cloud_wapi (.vstr s) =
        .ok (match findVersionMatch s.toList with
             | some g => decide (natOfDigits g ≥ CLOUD_WAPI_MAJOR_VERSION)
             | none => false)) ∧
    is_cloud_wapi (.vstr "") = .error (.valueError "Invalid argument was passed") ∧
    (∀ b, is_cloud_wapi (.vbool b) =
      .error (.valueError "Invalid argument was passed")) ∧
    (∀ n, is_cloud_wapi (.vint n) =
      .error (.valueError "Invalid argument was passed")) ∧
    is_cloud_wapi (.vstr "2.5") = .ok true ∧
    is_cloud_wapi (.vstr "1.4") = .ok false := by
  refine ⟨?_, rfl, fun b => rfl, fun n => rfl, rfl, rfl⟩
  intro s hs
  simp only [is_cloud_wapi, if_neg hs]
  cases h : findVersionMatch s.toList with
  | none => simp
  | some g =>
    by_cases hg : natOfDigits g ≥ CLOUD_WAPI_MAJOR_VERSION
    · simp [hg]
    · simp [hg]

/-- Witness for C5 at `"2.5"`. -/
theorem is_cloud_wapi_spec_witness :
    is_cloud_wapi (.vstr "2.5") =
      .ok (match findVersionMatch "2.5".toList with
           | some g => decide (natOfDigits g ≥ CLOUD_WAPI_MAJOR_VERSION)
           | none => false) :=
  is_cloud_wapi_spec.1 "2.5" (by decide)

/-! ## C10 — strings without a version pattern -/

theorem dot_isDigit : ('.' : Char).isDigit = false := by decide

theorem versionMatchAt_some_pattern {c : Char} {rest g : List Char}
    (hc : c.isDigit = true) (h : versionMatchAt (c :: rest) = some g) :
    hasVersionPattern (c :: rest) := by
  have hsplit := List.takeWhile_append_dropWhile (p := Char.isDigit) (l := c :: rest)
  cases ht : List.dropWhile Char.isDigit (c :: rest) with
  | nil => simp [versionMatchAt, ht] at h
  | cons d1 tl =>
    cases tl with
    | nil => simp [versionMatchAt, ht] at h
    | cons d2 tl2 =>
      by_cases hb : (d1 == '.' && d2.isDigit) = true
      · have hd1 : d1 = '.' := eq_of_beq ((Bool.and_eq_true _ _).mp hb).1
        have hd2 : d2.isDigit = true := ((Bool.and_eq_true _ _).mp hb).2
        have htw : List.takeWhile Char.isDigit (c :: rest) =
            c :: List.takeWhile Char.isDigit rest := by
          simp [List.takeWhile_cons, hc]
        obtain ⟨L, x, hLx⟩ : ∃ L x,
            List.takeWhile Char.isDigit (c :: rest) = L ++ [x] := by
          rcases List.eq_nil_or_concat
              (List.takeWhile Char.isDigit (c :: rest)) with hnil | ⟨L, x, hLx⟩
          · rw [htw] at hnil; cases hnil
          · exact ⟨L, x, by simpa [List.concat_eq_append] using hLx⟩
        have hx : x.isDigit = true := by
          apply List.mem_takeWhile_imp (l := c :: rest)
          rw [hLx]; simp
        refine ⟨L, x, d2, tl2, ?_, hx, hd2⟩
        have hdec : (c :: rest) = (L ++ [x]) ++ (d1 :: d2 :: tl2) := by
          rw [← hLx, ← ht, hsplit]
        rw [hd1] at hdec
        simpa [List.append_assoc] using hdec
      · simp [versionMatchAt, ht, hb] at h

theorem versionMatchAt_none_nohead {c : Char} {rest : List Char}
    (hc : c.isDigit = true) (h : versionMatchAt (c :: rest) = none) :
    ∀ d suf, rest = '.' :: d :: suf → d.isDigit = false := by
  intro d suf hr
  subst hr
  by_cases hd : d.isDigit = true
  · exfalso
    have ht : List.dropWhile Char.isDigit (c :: '.' :: d :: suf) =
        '.' :: d :: suf := by
      simp [List.dropWhile_cons, hc, dot_isDigit]
    simp [versionMatchAt, ht, hd] at h
  · simpa using hd

theorem hasVersionPattern_cons {c : Char} {rest : List Char}
    (h : hasVersionPattern rest) : hasVersionPattern (c :: rest) := by
  obtain ⟨pre, a, d, suf, hdec, ha, hd⟩ := h
  exact ⟨c :: pre, a, d, suf, by rw [hdec]; rfl, ha, hd⟩

theorem hasVersionPattern_cons_elim {c : Char} {rest : List Char}
    (h : hasVersionPattern (c :: rest)) :
    (∃ d suf, rest = '.' :: d :: suf ∧ c.isDigit = true ∧ d.isDigit = true) ∨
      hasVersionPattern rest := by
  obtain ⟨pre, a, d, suf, hdec, ha, hd⟩ := h
  cases pre with
  | nil =>
    simp only [List.nil_append, List.cons.injEq] at hdec
    obtain ⟨hca, hrest⟩ := hdec
    exact .inl ⟨d, suf, hrest, hca ▸ ha, hd⟩
  | cons p ps =>
    simp only [List.cons_append, List.cons.injEq] at hdec
    exact .inr ⟨ps, a, d, suf, hdec.2, ha, hd⟩

theorem findVersionMatch_none_iff (cs : List Char) :
    findVersionMatch cs = none ↔ ¬ hasVersionPattern cs := by
  induction cs with
  | nil =>
    simp only [findVersionMatch, true_iff]
    rintro ⟨pre, c, d, suf, hdec, -, -⟩
    cases pre <;> simp at hdec
  | cons c rest ih =>
    by_cases hc : c.isDigit = true
    · cases hm : versionMatchAt (c :: rest) with
      | some g =>
        have hf : findVersionMatch (c :: rest) = some g := by
          simp [findVersionMatch, hc, hm]
        rw [hf]
        constructor
        · intro h; exact Option.noConfusion h
        · intro hnp; exact absurd (versionMatchAt_some_pattern hc hm) hnp
      | none =>
        have hf : findVersionMatch (c :: rest) = findVersionMatch rest := by
          simp [findVersionMatch, hc, hm]
        rw [hf, ih]
        apply not_congr
        constructor
        · exact hasVersionPattern_cons
        · intro h
          rcases hasVersionPattern_cons_elim h with ⟨d, suf, hr, -, hd⟩ | hp
          · rw [versionMatchAt_none_nohead hc hm d suf hr] at hd; cases hd
          · exact hp
    · have hf : findVersionMatch (c :: rest) = findVersionMatch rest := by
        simp [findVersionMatch, hc]
      rw [hf, ih]
      apply not_congr
      constructor
      · exact hasVersionPattern_cons
      · intro h
        rcases hasVersionPattern_cons_elim h with ⟨d, suf, hr, hcd, hd⟩ | hp
        · exact absurd hcd hc
        · exact hp

/-- C10: for every non-empty string that contains no `digits.digits`
numeric pattern, `is_cloud_wapi` returns `False` rather than raising. -/
theorem is_cloud_wapi_no_pattern (s : String) (hs : s ≠ "")
    (h : ¬ hasVersionPattern s.toList) :
    is_cloud_wapi (.vstr s) = .ok false := by
  have hn : findVersionMatch s.data = none := (findVersionMatch_none_iff s.data).mpr h
  simp [is_cloud_wapi, hs, hn]

/-- Witness for C10 at `"abc"`. -/
theorem is_cloud_wapi_no_pattern_witness :
    is_cloud_wapi (.vstr "abc") = .ok false :=
  is_cloud_wapi_no_pattern "abc" (by decide)
    ((findVersionMatch_none_iff _).mp rfl)

/-! ## C4 — URL construction -/

theorem joinSep_cons_length (sep x : String) (xs : List String) :
    x.length ≤ (joinSep sep (x :: xs)).length := by
  cases xs with
  | nil => simp [joinSep]
  | cons y ys => simp [joinSep, String.length_append]; omega

theorem extSeg_length_pos (kv : String × String) (rest : List (String × String)) :
    0 < (joinSep "&" ((kv :: rest).map fun p => "*" ++ p.1 ++ "=" ++ p.2)).length := by
  have h := joinSep_cons_length "&" ("*" ++ kv.1 ++ "=" ++ kv.2)
    (rest.map fun p => "*" ++ p.1 ++ "=" ++ p.2)
  have hstar : "*".length = 1 := rfl
  have h2 : 0 < ("*" ++ kv.1 ++ "=" ++ kv.2).length := by
    simp only [String.length_append]
    omega
  simp only [List.map_cons]
  omega

/-- C4: `_construct_url` rejects an empty relative path or one starting
with `'/'` with a `ValueError`; otherwise it returns the base URL joined
with the percent-quoted relative path followed by the query string of
`querySpec`: proxy flag injected as `_proxy_search=GM` before encoding,
extensible-attribute segment first, percent-encoded ordinary parameters
after it, `&` between the two exactly when both are non-empty. -/
theorem construct_url_spec (wapi_url relative_path : String)
    (query_params extattrs : List (String × String)) (force_proxy : Bool) :
    (relative_path = "" ∨ relative_path.front = '/' →
      _construct_url wapi_url relative_path query_params extattrs force_proxy =
        .error (.valueError "Path in request must be relative.")) ∧
    (relative_path ≠ "" → relative_path.front ≠ '/' →
      _construct_url wapi_url relative_path query_params extattrs force_proxy =
        .ok (urljoin wapi_url (quote relative_path) ++
          querySpec query_params extattrs force_proxy)) := by
  constructor
  · intro h
    simp only [_construct_url, if_pos h]
  · intro h1 h2
    have hno : ¬(relative_path = "" ∨ relative_path.front = '/') := by
      rintro (h | h) <;> [exact h1 h; exact h2 h]
    set qp := (if force_proxy then dictInsert query_params "_proxy_search" "GM"
      else query_params) with hqp
    have hq1 : ("?" : String).length = 1 := rfl
    by_cases hq : qp = [] <;> by_cases he : extattrs = []
    · simp [_construct_url, querySpec, if_neg hno, ← hqp, hq, he, urlencode, joinSep]
    · have hpos : 0 < (joinSep "&"
          (List.map (fun kv => "*" ++ kv.1 ++ "=" ++ kv.2) extattrs)).length := by
        obtain ⟨kv, rest, hkv⟩ := List.exists_cons_of_ne_nil he
        rw [hkv]
        exact extSeg_length_pos kv rest
      have hlen : 1 < ("?" : String).length + (joinSep "&"
          (List.map (fun kv => "*" ++ kv.1 ++ "=" ++ kv.2) extattrs)).length := by
        omega
      simp [_construct_url, querySpec, if_neg hno, ← hqp, hq, he, hlen,
        urlencode, joinSep]
    · simp [_construct_url, querySpec, if_neg hno, ← hqp, hq, he, hq1, joinSep]
    · have hpos : 0 < (joinSep "&"
          (List.map (fun kv => "*" ++ kv.1 ++ "=" ++ kv.2) extattrs)).length := by
        obtain ⟨kv, rest, hkv⟩ := List.exists_cons_of_ne_nil he
        rw [hkv]
        exact extSeg_length_pos kv rest
      have hlen : 1 < ("?" : String).length + (joinSep "&"
          (List.map (fun kv => "*" ++ kv.1 ++ "=" ++ kv.2) extattrs)).length := by
        omega
      simp [_construct_url, querySpec, if_neg hno, ← hqp, hq, he, hlen]

/-- Witness for C4: the empty path is rejected; a proxied get URL on a
cloud base renders the extensible-attribute segment first. -/
theorem construct_url_spec_witness :
    _construct_url "https://h/wapi/v2.5/" "" [] [] false =
      .error (.valueError "Path in request must be relative.") ∧
    _construct_url "https://nios.example.com/wapi/v2.5/" "network"
        [("view", "default")] [("Cloud API Owned", "True")] true =
      .ok (urljoin "https://nios.example.com/wapi/v2.5/" (quote "network") ++
        querySpec [("view", "default")] [("Cloud API Owned", "True")] true) :=
  ⟨(construct_url_spec "https://h/wapi/v2.5/" "" [] [] false).1 (Or.inl rfl),
   (construct_url_spec "https://nios.example.com/wapi/v2.5/" "network"
      [("view", "default")] [("Cloud API Owned", "True")] true).2
      (by decide) (by decide)⟩

/-! ## C3 — configuration resolution -/

theorem resolve_option_some (options : Options) (attr : String) (v : PyVal)
    (h : options attr = some v) : resolve_option options attr = .ok v := by
  simp [resolve_option, h]

theorem resolve_option_defaultD (options : Options) (attr : String) (d : PyVal)
    (hd : (DEFAULT_OPTIONS.find? (fun kv => kv.1 == attr)).map Prod.snd = some d) :
    resolve_option options attr = .ok ((options attr).getD d) := by
  cases ho : options attr <;> simp [resolve_option, ho, hd]

theorem resolve_option_missing (options : Options) (attr : String)
    (h : options attr = none)
    (hd : (DEFAULT_OPTIONS.find? (fun kv => kv.1 == attr)).map Prod.snd = none) :
    resolve_option options attr =
      .error (.configError ("WAPI config error. Option " ++ attr ++
        " is not defined")) := by
  simp [resolve_option, h, hd]

theorem resolve_option_ok_required (options : Options) (attr : String) (v : PyVal)
    (hd : (DEFAULT_OPTIONS.find? (fun kv => kv.1 == attr)).map Prod.snd = none)
    (h : resolve_option options attr = .ok v) : options attr = some v := by
  cases ho : options attr with
  | none => simp [resolve_option, ho, hd] at h
  | some w => simp [resolve_option, ho] at h; rw [h]

theorem resolve_option_ok_default (options : Options) (attr : String) (v d : PyVal)
    (hd : (DEFAULT_OPTIONS.find? (fun kv => kv.1 == attr)).map Prod.snd = some d)
    (h : resolve_option options attr = .ok v) : v = (options attr).getD d := by
  cases ho : options attr with
  | none => simp [resolve_option, ho, hd] at h; simp [h.symm]
  | some w => simp [resolve_option, ho] at h; simp [h.symm]

/-- C3: `_parse_options` resolves every recognized option to the source's
value if present, else its fixed default
(`ssl_verify=False`, `silent_ssl_warnings=False`,
`http_request_timeout=10`, `http_pool_connections=10`,
`http_pool_maxsize=10`, `wapi_version="1.4"`,
`log_api_calls_as_info=False`), and fails with a `ConfigError` naming a
missing defaultless option; a blank `host`, `username` or `password`
also fails with a `ConfigError`; on success the base URL is
`https://{host}/wapi/v{version}/`. -/
theorem parse_options_spec (options : Options) :
    (options "host" = none →
      _parse_options options =
        .error (.configError "WAPI config error. Option host is not defined")) ∧
    (options "host" ≠ none → options "username" = none →
      _parse_options options =
        .error (.configError "WAPI config error. Option username is not defined")) ∧
    (options "host" ≠ none → options "username" ≠ none →
      options "password" = none →
      _parse_options options =
        .error (.configError "WAPI config error. Option password is not defined")) ∧
    (∀ hv uv pv, options "host" = some hv → options "username" = some uv →
      options "password" = some pv →
      (hv.truthy = false ∨ uv.truthy = false ∨ pv.truthy = false) →
      ∃ m, _parse_options options = .error (.configError m)) ∧
    (∀ cfg, _parse_options options = .ok cfg →
      options "host" = some cfg.host ∧
      options "username" = some cfg.username ∧
      options "password" = some cfg.password ∧
      cfg.wapi_version = (options "wapi_version").getD (.vstr "1.4") ∧
      cfg.ssl_verify = (options "ssl_verify").getD (.vbool false) ∧
      cfg.silent_ssl_warnings =
        (options "silent_ssl_warnings").getD (.vbool false) ∧
      cfg.http_request_timeout =
        (options "http_request_timeout").getD (.vint 10) ∧
      cfg.http_pool_connections =
        (options "http_pool_connections").getD (.vint 10) ∧
      cfg.http_pool_maxsize = (options "http_pool_maxsize").getD (.vint 10) ∧
      cfg.log_api_calls_as_info =
        (options "log_api_calls_as_info").getD (.vbool false) ∧
      cfg.host.truthy = true ∧ cfg.username.truthy = true ∧
      cfg.password.truthy = true ∧
      cfg.wapi_url = "https://" ++ cfg.host.toPyStr ++ "/wapi/v" ++
        cfg.wapi_version.toPyStr ++ "/") := by
  have hwv := resolve_option_defaultD options "wapi_version" (.vstr "1.4") rfl
  have hsv := resolve_option_defaultD options "ssl_verify" (.vbool false) rfl
  have hrtd := resolve_option_defaultD options "http_request_timeout" (.vint 10) rfl
  have hpcd := resolve_option_defaultD options "http_pool_connections" (.vint 10) rfl
  have hpmd := resolve_option_defaultD options "http_pool_maxsize" (.vint 10) rfl
  have hswd := resolve_option_defaultD options "silent_ssl_warnings" (.vbool false) rfl
  have hlid := resolve_option_defaultD options "log_api_calls_as_info" (.vbool false) rfl
  refine ⟨?_, ?_, ?_, ?_, ?_⟩
  · intro h
    simp only [_parse_options, resolve_option_missing options "host" h rfl,
      Bind.bind, Except.bind]
    rfl
  · intro hh hu
    obtain ⟨hv, hhv⟩ := Option.ne_none_iff_exists'.mp hh
    simp only [_parse_options, resolve_option_some options "host" hv hhv,
      hwv, resolve_option_missing options "username" hu rfl,
      Bind.bind, Except.bind]
    rfl
  · intro hh hu hp
    obtain ⟨hv, hhv⟩ := Option.ne_none_iff_exists'.mp hh
    obtain ⟨uv, huv⟩ := Option.ne_none_iff_exists'.mp hu
    simp only [_parse_options, resolve_option_some options "host" hv hhv,
      hwv, resolve_option_some options "username" uv huv,
      resolve_option_missing options "password" hp rfl,
      Bind.bind, Except.bind]
    rfl
  · intro hv uv pv hhv huv hpv hblank
    rcases hblank with hb | hb | hb
    · exact ⟨"WAPI config error. Option host can not be blank",
        by simp [_parse_options, resolve_option_some options "host" hv hhv,
          hwv, resolve_option_some options "username" uv huv,
          resolve_option_some options "password" pv hpv, hsv, hrtd, hpcd,
          hpmd, hswd, hlid, hb, throw_eq, Bind.bind, Except.bind]⟩
    · by_cases hbh : hv.truthy = true
      · exact ⟨"WAPI config error. Option username can not be blank",
          by simp [_parse_options, resolve_option_some options "host" hv hhv,
            hwv, resolve_option_some options "username" uv huv,
            resolve_option_some options "password" pv hpv, hsv, hrtd, hpcd,
            hpmd, hswd, hlid, hb, hbh, throw_eq, Bind.bind, Except.bind]⟩
      · exact ⟨"WAPI config error. Option host can not be blank",
          by simp [_parse_options, resolve_option_some options "host" hv hhv,
            hwv, resolve_option_some options "username" uv huv,
            resolve_option_some options "password" pv hpv, hsv, hrtd, hpcd,
            hpmd, hswd, hlid, Bool.eq_false_iff.mpr hbh, throw_eq,
            Bind.bind, Except.bind]⟩
    · by_cases hbh : hv.truthy = true
      · by_cases hbu : uv.truthy = true
        · exact ⟨"WAPI config error. Option password can not be blank",
            by simp [_parse_options, resolve_option_some options "host" hv hhv,
              hwv, resolve_option_some options "username" uv huv,
              resolve_option_some options "password" pv hpv, hsv, hrtd, hpcd,
              hpmd, hswd, hlid, hb, hbh, hbu, throw_eq,
              Bind.bind, Except.bind]⟩
        · exact ⟨"WAPI config error. Option username can not be blank",
            by simp [_parse_options, resolve_option_some options "host" hv hhv,
              hwv, resolve_option_some options "username" uv huv,
              resolve_option_some options "password" pv hpv, hsv, hrtd, hpcd,
              hpmd, hswd, hlid, hbh, Bool.eq_false_iff.mpr hbu, throw_eq,
              Bind.bind, Except.bind]⟩
      · exact ⟨"WAPI config error. Option host can not be blank",
          by simp [_parse_options, resolve_option_some options "host" hv hhv,
            hwv, resolve_option_some options "username" uv huv,
            resolve_option_some options "password" pv hpv, hsv, hrtd, hpcd,
            hpmd, hswd, hlid, Bool.eq_false_iff.mpr hbh, throw_eq,
            Bind.bind, Except.bind]⟩
  · intro cfg h
    rw [_parse_options] at h
    obtain ⟨host, hhost, h⟩ := (except_bind_ok _ _ _).mp h
    obtain ⟨wapiv, hwapiv, h⟩ := (except_bind_ok _ _ _).mp h
    obtain ⟨user, huser, h⟩ := (except_bind_ok _ _ _).mp h
    obtain ⟨pwd, hpwd, h⟩ := (except_bind_ok _ _ _).mp h
    obtain ⟨sslv, hsslv, h⟩ := (except_bind_ok _ _ _).mp h
    obtain ⟨hrt, hhrt, h⟩ := (except_bind_ok _ _ _).mp h
    obtain ⟨hpc, hhpc, h⟩ := (except_bind_ok _ _ _).mp h
    obtain ⟨hpm, hhpm, h⟩ := (except_bind_ok _ _ _).mp h
    obtain ⟨ssw, hssw, h⟩ := (except_bind_ok _ _ _).mp h
    obtain ⟨logi, hlogi, h⟩ := (except_bind_ok _ _ _).mp h
    by_cases hht : host.truthy = true
    · by_cases hut : user.truthy = true
      · by_cases hpt : pwd.truthy = true
        · rw [if_neg (by simp [hht]), if_neg (by simp [hut]),
            if_neg (by simp [hpt])] at h
          obtain ⟨cloud, hcloud, h⟩ := (except_bind_ok _ _ _).mp h
          rw [pure_eq] at h
          obtain rfl := (Except.ok.injEq _ _).mp h
          exact ⟨resolve_option_ok_required options "host" host rfl hhost,
            resolve_option_ok_required options "username" user rfl huser,
            resolve_option_ok_required options "password" pwd rfl hpwd,
            resolve_option_ok_default options "wapi_version" wapiv
              (.vstr "1.4") rfl hwapiv,
            resolve_option_ok_default options "ssl_verify" sslv
              (.vbool false) rfl hsslv,
            resolve_option_ok_default options "silent_ssl_warnings" ssw
              (.vbool false) rfl hssw,
            resolve_option_ok_default options "http_request_timeout" hrt
              (.vint 10) rfl hhrt,
            resolve_option_ok_default options "http_pool_connections" hpc
              (.vint 10) rfl hhpc,
            resolve_option_ok_default options "http_pool_maxsize" hpm
              (.vint 10) rfl hhpm,
            resolve_option_ok_default options "log_api_calls_as_info" logi
              (.vbool false) rfl hlogi,
            hht, hut, hpt, rfl⟩
        · simp [throw_eq, hht, hut, Bool.eq_false_iff.mpr hpt] at h
      · simp [throw_eq, hht, Bool.eq_false_iff.mpr hut] at h
    · simp [throw_eq, Bool.eq_false_iff.mpr hht] at h

/-- Witness for C3: a blank password is rejected, a source providing
nothing is rejected naming `host`, and the fully explicit source
resolves with defaults and the derived base URL. -/
theorem parse_options_spec_witness :
    (∃ m, _parse_options optsBlankPwd = .error (.configError m)) ∧
    _parse_options optsMissingHost =
      .error (.configError "WAPI config error. Option host is not defined") ∧
    ∃ cfg, _parse_options optsFull = .ok cfg ∧
      optsFull "host" = some cfg.host ∧
      cfg.wapi_url = "https://" ++ cfg.host.toPyStr ++ "/wapi/v" ++
        cfg.wapi_version.toPyStr ++ "/" :=
  ⟨(parse_options_spec optsBlankPwd).2.2.2.1 (.vstr "h") (.vstr "a") (.vstr "")
      rfl rfl rfl (Or.inr (Or.inr rfl)),
   (parse_options_spec optsMissingHost).1 rfl,
   ⟨{ host := .vstr "nios.example.com", wapi_version := .vstr "2.5",
      username := .vstr "a", password := .vstr "b",
      ssl_verify := .vbool false, http_request_timeout := .vint 10,
      http_pool_connections := .vint 10, http_pool_maxsize := .vint 10,
      silent_ssl_warnings := .vbool false, log_api_calls_as_info := .vbool false,
      wapi_url := "https://nios.example.com/wapi/v2.5/",
      cloud_api_enabled := true },
    rfl,
    ((parse_options_spec optsFull).2.2.2.2 _ rfl).1,
    ((parse_options_spec optsFull).2.2.2.2 _ rfl).2.2.2.2.2.2.2.2.2.2.2.2.2⟩⟩

/-! ## C1 — cloud-proxy retry policy of `get_object` -/

theorem get_inner_ok (net : Net) (obj_type url : String) (j : JSON)
    (hst : (net url).status = codes_ok)
    (hj : jsonLoads (net url).content = .ok j) :
    _get_object net obj_type url = .ok j := by
  simp [_get_object, _validate_authorized, _parse_reply, hst, hj, codes_ok,
    codes_UNAUTHORIZED, Bind.bind, Except.bind]

theorem get_inner_err (net : Net) (obj_type url : String)
    (hst : (net url).status ≠ codes_ok) :
    ∃ e, _get_object net obj_type url = .error e := by
  by_cases h401 : (net url).status = codes_UNAUTHORIZED
  · exact ⟨.authError, by
      simp [_get_object, _validate_authorized, h401, throw_eq,
        Bind.bind, Except.bind]⟩
  · cases hjl : jsonLoads (net url).content with
    | ok j =>
      exact ⟨.searchError j obj_type (net url).content (net url).status, by
        simp [_get_object, _validate_authorized, beq_iff_eq, h401, hst, hjl,
          throw_eq, Bind.bind, Except.bind]⟩
    | error e =>
      exact ⟨e, by
        simp [_get_object, _validate_authorized, beq_iff_eq, h401, hst, hjl,
          throw_eq, Bind.bind, Except.bind]⟩

theorem get_object_unfold (cloud : Bool) (wapi_url : String) (net : Net)
    (obj_type : String) (payload : Option (List (String × String)))
    (return_fields : Option (List String)) (extattrs : List (String × String))
    (force_proxy : Bool) (url1 : String)
    (hvt : obj_type ≠ "")
    (hu1 : _construct_url wapi_url obj_type
      (_build_query_params payload return_fields) extattrs
      (cloud && force_proxy) = .ok url1) :
    get_object cloud wapi_url net obj_type payload return_fields extattrs
        force_proxy =
      (match _get_object net obj_type url1 with
       | .error e => ([url1], .error e)
       | .ok j1 =>
         if j1.truthy then ([url1], .ok (some j1))
         else if cloud && !force_proxy then
           (match _construct_url wapi_url obj_type
               (_build_query_params payload return_fields) extattrs true with
            | .error e => ([url1], .error e)
            | .ok url2 =>
              match _get_object net obj_type url2 with
              | .error e => ([url1, url2], .error e)
              | .ok j2 =>
                if j2.truthy then ([url1, url2], .ok (some j2))
                else ([url1, url2], .ok none))
         else ([url1], .ok none)) := by
  have hval : _validate_obj_type_or_die obj_type false = .ok () := by
    simp [_validate_obj_type_or_die, hvt]
  simp only [get_object, hval, hu1]

/-- C1: with a valid object type and a well-formed first URL, `get_object`
makes at most two requests; when the first request succeeds with an
empty (falsy) result on a cloud-capable configuration with caller-level
`force_proxy = False`, exactly one more request is made at the URL built
with the proxy flag forced to true, and that second request's outcome is
what is returned (its parsed object when truthy, the absent result
`none` when the second result is empty, its error when it fails); in
every other empty-result case the empty result returns with no second
request; a non-200 first response errors with no second request; a
truthy first result returns immediately. -/
theorem get_object_cloud_retry (cloud : Bool) (wapi_url : String) (net : Net)
    (obj_type : String) (payload : Option (List (String × String)))
    (return_fields : Option (List String)) (extattrs : List (String × String))
    (force_proxy : Bool) (url1 : String)
    (hvt : obj_type ≠ "")
    (hu1 : _construct_url wapi_url obj_type
      (_build_query_params payload return_fields) extattrs
      (cloud && force_proxy) = .ok url1) :
    (get_object cloud wapi_url net obj_type payload return_fields extattrs
      force_proxy).1.length ≤ 2 ∧
    (∀ j1, cloud = true → force_proxy = false →
      (net url1).status = codes_ok →
      jsonLoads (net url1).content = .ok j1 → j1.truthy = false →
      ∀ url2, _construct_url wapi_url obj_type
          (_build_query_params payload return_fields) extattrs true = .ok url2 →
        get_object cloud wapi_url net obj_type payload return_fields extattrs
            force_proxy =
          ([url1, url2], (_get_object net obj_type url2).map
            (fun j2 => if j2.truthy then some j2 else none))) ∧
    (∀ j1, (cloud = false ∨ force_proxy = true) →
      (net url1).status = codes_ok →
      jsonLoads (net url1).content = .ok j1 → j1.truthy = false →
      get_object cloud wapi_url net obj_type payload return_fields extattrs
          force_proxy = ([url1], .ok none)) ∧
    ((net url1).status ≠ codes_ok →
      (get_object cloud wapi_url net obj_type payload return_fields extattrs
        force_proxy).1 = [url1] ∧
      ∃ e, (get_object cloud wapi_url net obj_type payload return_fields
        extattrs force_proxy).2 = .error e) ∧
    (∀ j1, (net url1).status = codes_ok →
      jsonLoads (net url1).content = .ok j1 → j1.truthy = true →
      get_object cloud wapi_url net obj_type payload return_fields extattrs
          force_proxy = ([url1], .ok (some j1))) := by
  rw [get_object_unfold cloud wapi_url net obj_type payload return_fields
    extattrs force_proxy url1 hvt hu1]
  refine ⟨?_, ?_, ?_, ?_, ?_⟩
  · cases hg : _get_object net obj_type url1 with
    | error e => simp
    | ok j1 =>
      by_cases h1 : j1.truthy = true
      · simp [h1]
      · by_cases h2 : (cloud && !force_proxy) = true
        · cases hc2 : _construct_url wapi_url obj_type
              (_build_query_params payload return_fields) extattrs true with
          | error e => simp [h1, h2, hc2]
          | ok url2 =>
            cases hg2 : _get_object net obj_type url2 with
            | error e => simp [h1, h2, hc2, hg2]
            | ok j2 =>
              by_cases h3 : j2.truthy = true <;> simp [h1, h2, hc2, hg2, h3]
        · simp [h1, h2]
  · intro j1 hcl hfp hst hj h1
    intro url2 hu2
    rw [get_inner_ok net obj_type url1 j1 hst hj]
    simp only [h1, Bool.false_eq_true, if_false, hcl, hfp, Bool.not_false,
      Bool.and_self, if_true, hu2]
    cases hg2 : _get_object net obj_type url2 with
    | error e => simp [Except.map]
    | ok j2 =>
      by_cases h3 : j2.truthy = true <;> simp [h3, Except.map]
  · intro j1 hor hst hj h1
    rw [get_inner_ok net obj_type url1 j1 hst hj]
    have h2 : (cloud && !force_proxy) = false := by
      rcases hor with h | h <;> simp [h]
    simp [h1, h2]
  · intro hst
    obtain ⟨e, hge⟩ := get_inner_err net obj_type url1 hst
    rw [hge]
    exact ⟨rfl, e, rfl⟩
  · intro j1 hst hj h1
    rw [get_inner_ok net obj_type url1 j1 hst hj]
    simp [h1]

/-- Witness for C1: on a cloud configuration, an empty first response
triggers exactly the proxied second request whose (truthy) result is
returned. -/
theorem get_object_cloud_retry_witness :
    get_object true "https://nios.example.com/wapi/v2.5/" netRetry "network"
        none none [] false =
      (["https://nios.example.com/wapi/v2.5/network",
        "https://nios.example.com/wapi/v2.5/network?_proxy_search=GM"],
       (_get_object netRetry "network"
          "https://nios.example.com/wapi/v2.5/network?_proxy_search=GM").map
         (fun j2 => if j2.truthy then some j2 else none)) :=
  (get_object_cloud_retry true "https://nios.example.com/wapi/v2.5/" netRetry
      "network" none none [] false
      "https://nios.example.com/wapi/v2.5/network"
      (by decide) rfl).2.1 (.arr []) rfl rfl rfl rfl rfl
      "https://nios.example.com/wapi/v2.5/network?_proxy_search=GM" rfl

/-! ## C6 — 401 always wins -/

theorem get_inner_401 (net : Net) (obj_type url : String)
    (h : (net url).status = codes_UNAUTHORIZED) :
    _get_object net obj_type url = .error .authError := by
  simp [_get_object, _validate_authorized, h, throw_eq, Bind.bind, Except.bind]

/-- C6: on every operation a 401 response raises `AuthError` before any
operation-specific status dispatch: whatever the body and whatever error
the status dispatch would otherwise choose, the result is `authError`. -/
theorem auth_error_precedence (wapi_url : String) (net : Net) :
    (∀ cloud obj_type payload return_fields extattrs force_proxy url1,
      obj_type ≠ "" →
      _construct_url wapi_url obj_type
        (_build_query_params payload return_fields) extattrs
        (cloud && force_proxy) = .ok url1 →
      (net url1).status = codes_UNAUTHORIZED →
      get_object cloud wapi_url net obj_type payload return_fields extattrs
        force_proxy = ([url1], .error .authError)) ∧
    (∀ obj_type payload return_fields url,
      _validate_obj_type_or_die obj_type = .ok () →
      _construct_url wapi_url obj_type
        (_build_query_params none return_fields) = .ok url →
      (net url).status = codes_UNAUTHORIZED →
      create_object wapi_url net obj_type payload return_fields =
        .error .authError) ∧
    (∀ func_name ref payload return_fields url,
      _construct_url wapi_url ref
        (dictInsert (_build_query_params none return_fields) "_function"
          func_name) = .ok url →
      (net url).status = codes_UNAUTHORIZED →
      call_func wapi_url net func_name ref payload return_fields =
        .error .authError) ∧
    (∀ ref payload return_fields url,
      _construct_url wapi_url ref (_build_query_params none return_fields) =
        .ok url →
      (net url).status = codes_UNAUTHORIZED →
      update_object wapi_url net ref payload return_fields =
        .error .authError) ∧
    (∀ ref url,
      _construct_url wapi_url ref = .ok url →
      (net url).status = codes_UNAUTHORIZED →
      delete_object wapi_url net ref = .error .authError) := by
  refine ⟨?_, ?_, ?_, ?_, ?_⟩
  · intro cloud obj_type payload return_fields extattrs force_proxy url1
      hvt hu1 h401
    rw [get_object_unfold cloud wapi_url net obj_type payload return_fields
      extattrs force_proxy url1 hvt hu1,
      get_inner_401 net obj_type url1 h401]
  · intro obj_type payload return_fields url hv hu h401
    simp [create_object, hv, hu, _validate_authorized, h401, throw_eq,
      Bind.bind, Except.bind]
  · intro func_name ref payload return_fields url hu h401
    simp [call_func, hu, _validate_authorized, h401, throw_eq,
      Bind.bind, Except.bind]
  · intro ref payload return_fields url hu h401
    simp [update_object, hu, _validate_authorized, h401, throw_eq,
      Bind.bind, Except.bind]
  · intro ref url hu h401
    simp [delete_object, hu, _validate_authorized, h401, throw_eq,
      Bind.bind, Except.bind]

/-- Witness for C6: a 401 network makes get and delete raise `AuthError`. -/
theorem auth_error_precedence_witness :
    get_object true "https://h/wapi/v2.5/" net401 "network" none none []
        false = (["https://h/wapi/v2.5/network"], .error .authError) ∧
    delete_object "https://h/wapi/v2.5/" net401 "ipv4address/ZG5z" =
      .error .authError :=
  ⟨(auth_error_precedence "https://h/wapi/v2.5/" net401).1 true "network"
      none none [] false "https://h/wapi/v2.5/network" (by decide) rfl rfl,
   (auth_error_precedence "https://h/wapi/v2.5/" net401).2.2.2.2
      "ipv4address/ZG5z" "https://h/wapi/v2.5/ipv4address/ZG5z" rfl rfl⟩

/-! ## C7 — success status with unparseable body -/

theorem get_inner_invalid (net : Net) (obj_type url raw : String)
    (hst : (net url).status = codes_ok)
    (hc : (net url).content = .invalid raw) :
    _get_object net obj_type url = .error (.connectionError (.invalid raw)) := by
  simp [_get_object, _validate_authorized, _parse_reply, hst, hc, jsonLoads,
    codes_ok, codes_UNAUTHORIZED, throw_eq, Bind.bind, Except.bind]

/-- C7: on every operation, a response with the operation's success
status (200 for get/update/delete, 201 for create, 200 or 201 for call)
whose raw content is not valid JSON fails with `ConnectionError`
carrying that raw content as the reason. -/
theorem invalid_success_body_connection_error (wapi_url : String) (net : Net) :
    (∀ cloud obj_type payload return_fields extattrs force_proxy url1 raw,
      obj_type ≠ "" →
      _construct_url wapi_url obj_type
        (_build_query_params payload return_fields) extattrs
        (cloud && force_proxy) = .ok url1 →
      (net url1).status = codes_ok → (net url1).content = .invalid raw →
      get_object cloud wapi_url net obj_type payload return_fields extattrs
        force_proxy = ([url1], .error (.connectionError (.invalid raw)))) ∧
    (∀ obj_type payload return_fields url raw,
      _validate_obj_type_or_die obj_type = .ok () →
      _construct_url wapi_url obj_type
        (_build_query_params none return_fields) = .ok url →
      (net url).status = codes_CREATED → (net url).content = .invalid raw →
      create_object wapi_url net obj_type payload return_fields =
        .error (.connectionError (.invalid raw))) ∧
    (∀ func_name ref payload return_fields url raw,
      _construct_url wapi_url ref
        (dictInsert (_build_query_params none return_fields) "_function"
          func_name) = .ok url →
      ((net url).status = codes_ok ∨ (net url).status = codes_CREATED) →
      (net url).content = .invalid raw →
      call_func wapi_url net func_name ref payload return_fields =
        .error (.connectionError (.invalid raw))) ∧
    (∀ ref payload return_fields url raw,
      _construct_url wapi_url ref (_build_query_params none return_fields) =
        .ok url →
      (net url).status = codes_ok → (net url).content = .invalid raw →
      update_object wapi_url net ref payload return_fields =
        .error (.connectionError (.invalid raw))) ∧
    (∀ ref url raw,
      _construct_url wapi_url ref = .ok url →
      (net url).status = codes_ok → (net url).content = .invalid raw →
      delete_object wapi_url net ref =
        .error (.connectionError (.invalid raw))) := by
  refine ⟨?_, ?_, ?_, ?_, ?_⟩
  · intro cloud obj_type payload return_fields extattrs force_proxy url1 raw
      hvt hu1 hst hc
    rw [get_object_unfold cloud wapi_url net obj_type payload return_fields
      extattrs force_proxy url1 hvt hu1,
      get_inner_invalid net obj_type url1 raw hst hc]
  · intro obj_type payload return_fields url raw hv hu hst hc
    simp [create_object, hv, hu, _validate_authorized, _parse_reply, hst, hc,
      jsonLoads, codes_CREATED, codes_UNAUTHORIZED, throw_eq,
      Bind.bind, Except.bind]
  · intro func_name ref payload return_fields url raw hu hst hc
    rcases hst with hst | hst <;>
      simp [call_func, hu, _validate_authorized, _parse_reply, hst, hc,
        jsonLoads, codes_ok, codes_CREATED, codes_UNAUTHORIZED, throw_eq,
        Bind.bind, Except.bind]
  · intro ref payload return_fields url raw hu hst hc
    simp [update_object, hu, _validate_authorized, _parse_reply, hst, hc,
      jsonLoads, codes_ok, codes_UNAUTHORIZED, throw_eq,
      Bind.bind, Except.bind]
  · intro ref url raw hu hst hc
    simp [delete_object, hu, _validate_authorized, _parse_reply, hst, hc,
      jsonLoads, codes_ok, codes_UNAUTHORIZED, throw_eq,
      Bind.bind, Except.bind]

/-- Witness for C7: a 200 response whose body is not JSON makes update
fail with `ConnectionError`, and a 201 one does the same for create. -/
theorem invalid_success_body_connection_error_witness :
    update_object "https://h/wapi/v2.5/" net200bad "network/ZG5z" (.obj [])
        none = .error (.connectionError (.invalid "<html>oops</html>")) ∧
    create_object "https://h/wapi/v2.5/" net201bad "network" (.obj []) none =
      .error (.connectionError (.invalid "<html>oops</html>")) :=
  ⟨(invalid_success_body_connection_error "https://h/wapi/v2.5/"
      net200bad).2.2.2.1 "network/ZG5z" (.obj []) none
      "https://h/wapi/v2.5/network/ZG5z" "<html>oops</html>" rfl rfl rfl,
   (invalid_success_body_connection_error "https://h/wapi/v2.5/"
      net201bad).2.1 "network" (.obj []) none
      "https://h/wapi/v2.5/network" "<html>oops</html>" rfl rfl rfl rfl⟩

/-! ## C9 — typed appliance errors need a JSON body -/

theorem get_inner_search (net : Net) (obj_type url : String) (j : JSON)
    (hst : (net url).status ≠ codes_ok)
    (h401 : (net url).status ≠ codes_UNAUTHORIZED)
    (hc : (net url).content = .json j) :
    _get_object net obj_type url =
      .error (.searchError j obj_type (.json j) (net url).status) := by
  simp [_get_object, _validate_authorized, beq_iff_eq, h401, hst, hc,
    jsonLoads, throw_eq, Bind.bind, Except.bind]

theorem get_inner_decode (net : Net) (obj_type url raw : String)
    (hst : (net url).status ≠ codes_ok)
    (h401 : (net url).status ≠ codes_UNAUTHORIZED)
    (hc : (net url).content = .invalid raw) :
    _get_object net obj_type url = .error (.jsonDecodeError raw) := by
  simp [_get_object, _validate_authorized, beq_iff_eq, h401, hst, hc,
    jsonLoads, throw_eq, Bind.bind, Except.bind]

/-- C9: for get, call, update and delete the typed appliance-rejection
error is raised exactly when the non-success (non-401) body is valid
JSON, and it carries the fully decoded body as its response field; when
such an error body is not valid JSON, the raw JSON-decode failure
(`ValueError` from `jsonutils.loads`) propagates instead of the typed
error. -/
theorem typed_errors_decode_body (wapi_url : String) (net : Net) :
    (∀ cloud obj_type payload return_fields extattrs force_proxy url1 j,
      obj_type ≠ "" →
      _construct_url wapi_url obj_type
        (_build_query_params payload return_fields) extattrs
        (cloud && force_proxy) = .ok url1 →
      (net url1).status ≠ codes_ok →
      (net url1).status ≠ codes_UNAUTHORIZED →
      (net url1).content = .json j →
      get_object cloud wapi_url net obj_type payload return_fields extattrs
        force_proxy =
        ([url1], .error (.searchError j obj_type (.json j)
          (net url1).status))) ∧
    (∀ cloud obj_type payload return_fields extattrs force_proxy url1 raw,
      obj_type ≠ "" →
      _construct_url wapi_url obj_type
        (_build_query_params payload return_fields) extattrs
        (cloud && force_proxy) = .ok url1 →
      (net url1).status ≠ codes_ok →
      (net url1).status ≠ codes_UNAUTHORIZED →
      (net url1).content = .invalid raw →
      get_object cloud wapi_url net obj_type payload return_fields extattrs
        force_proxy = ([url1], .error (.jsonDecodeError raw))) ∧
    (∀ func_name ref payload return_fields url j,
      _construct_url wapi_url ref
        (dictInsert (_build_query_params none return_fields) "_function"
          func_name) = .ok url →
      (net url).status ≠ codes_ok → (net url).status ≠ codes_CREATED →
      (net url).status ≠ codes_UNAUTHORIZED →
      (net url).content = .json j →
      call_func wapi_url net func_name ref payload return_fields =
        .error (.funcCallError j ref func_name (.json j) (net url).status)) ∧
    (∀ func_name ref payload return_fields url raw,
      _construct_url wapi_url ref
        (dictInsert (_build_query_params none return_fields) "_function"
          func_name) = .ok url →
      (net url).status ≠ codes_ok → (net url).status ≠ codes_CREATED →
      (net url).status ≠ codes_UNAUTHORIZED →
      (net url).content = .invalid raw →
      call_func wapi_url net func_name ref payload return_fields =
        .error (.jsonDecodeError raw)) ∧
    (∀ ref payload return_fields url j,
      _construct_url wapi_url ref (_build_query_params none return_fields) =
        .ok url →
      (net url).status ≠ codes_ok → (net url).status ≠ codes_UNAUTHORIZED →
      (net url).content = .json j →
      update_object wapi_url net ref payload return_fields =
        .error (.cannotUpdate j ref (.json j) (net url).status)) ∧
    (∀ ref payload return_fields url raw,
      _construct_url wapi_url ref (_build_query_params none return_fields) =
        .ok url →
      (net url).status ≠ codes_ok → (net url).status ≠ codes_UNAUTHORIZED →
      (net url).content = .invalid raw →
      update_object wapi_url net ref payload return_fields =
        .error (.jsonDecodeError raw)) ∧
    (∀ ref url j,
      _construct_url wapi_url ref = .ok url →
      (net url).status ≠ codes_ok → (net url).status ≠ codes_UNAUTHORIZED →
      (net url).content = .json j →
      delete_object wapi_url net ref =
        .error (.cannotDelete j ref (.json j) (net url).status)) ∧
    (∀ ref url raw,
      _construct_url wapi_url ref = .ok url →
      (net url).status ≠ codes_ok → (net url).status ≠ codes_UNAUTHORIZED →
      (net url).content = .invalid raw →
      delete_object wapi_url net ref = .error (.jsonDecodeError raw)) := by
  refine ⟨?_, ?_, ?_, ?_, ?_, ?_, ?_, ?_⟩
  · intro cloud obj_type payload return_fields extattrs force_proxy url1 j
      hvt hu1 hst h401 hc
    rw [get_object_unfold cloud wapi_url net obj_type payload return_fields
      extattrs force_proxy url1 hvt hu1,
      get_inner_search net obj_type url1 j hst h401 hc]
  · intro cloud obj_type payload return_fields extattrs force_proxy url1 raw
      hvt hu1 hst h401 hc
    rw [get_object_unfold cloud wapi_url net obj_type payload return_fields
      extattrs force_proxy url1 hvt hu1,
      get_inner_decode net obj_type url1 raw hst h401 hc]
  · intro func_name ref payload return_fields url j hu hst hst2 h401 hc
    simp [call_func, hu, _validate_authorized, beq_iff_eq, h401, hst, hst2,
      hc, jsonLoads, throw_eq, Bind.bind, Except.bind]
  · intro func_name ref payload return_fields url raw hu hst hst2 h401 hc
    simp [call_func, hu, _validate_authorized, beq_iff_eq, h401, hst, hst2,
      hc, jsonLoads, throw_eq, Bind.bind, Except.bind]
  · intro ref payload return_fields url j hu hst h401 hc
    simp [update_object, hu, _validate_authorized, beq_iff_eq, h401, hst,
      hc, jsonLoads, throw_eq, Bind.bind, Except.bind]
  · intro ref payload return_fields url raw hu hst h401 hc
    simp [update_object, hu, _validate_authorized, beq_iff_eq, h401, hst,
      hc, jsonLoads, throw_eq, Bind.bind, Except.bind]
  · intro ref url j hu hst h401 hc
    simp [delete_object, hu, _validate_authorized, beq_iff_eq, h401, hst,
      hc, jsonLoads, throw_eq, Bind.bind, Except.bind]
  · intro ref url raw hu hst h401 hc
    simp [delete_object, hu, _validate_authorized, beq_iff_eq, h401, hst,
      hc, jsonLoads, throw_eq, Bind.bind, Except.bind]

/-- Witness for C9: a 404 JSON body yields `CannotDeleteError` carrying
the decoded body; a 404 non-JSON body makes delete fail with the raw
decode error instead. -/
theorem typed_errors_decode_body_witness :
    delete_object "https://h/wapi/v2.5/" net404json "network/ZG5z" =
      .error (.cannotDelete (.obj [("text", .str "not found")]) "network/ZG5z"
        (.json (.obj [("text", .str "not found")])) 404) ∧
    delete_object "https://h/wapi/v2.5/" net404bad "network/ZG5z" =
      .error (.jsonDecodeError "<html>dead</html>") :=
  ⟨(typed_errors_decode_body "https://h/wapi/v2.5/" net404json).2.2.2.2.2.2.1
      "network/ZG5z" "https://h/wapi/v2.5/network/ZG5z"
      (.obj [("text", .str "not found")]) rfl (by decide) (by decide) rfl,
   (typed_errors_decode_body "https://h/wapi/v2.5/" net404bad).2.2.2.2.2.2.2
      "network/ZG5z" "https://h/wapi/v2.5/network/ZG5z" "<html>dead</html>"
      rfl (by decide) (by decide) rfl⟩

/-! ## C2 — classification of create failures -/

theorem create_object_cases (wapi_url : String) (net : Net) (obj_type : String)
    (payload : JSON) (return_fields : Option (List String)) (url : String)
    (hv : _validate_obj_type_or_die obj_type = .ok ())
    (hu : _construct_url wapi_url obj_type
      (_build_query_params none return_fields) = .ok url)
    (h401 : (net url).status ≠ codes_UNAUTHORIZED)
    (hst : (net url).status ≠ codes_CREATED) :
    create_object wapi_url net obj_type payload return_fields =
      match already_assigned_check "is assigned to another network view"
          (safe_json_load (net url).content) with
      | .error e => .error e
      | .ok true => .error (.memberAlreadyAssigned
          (safe_json_load (net url).content) obj_type (net url).content
          payload (net url).status)
      | .ok false => .error (.cannotCreate
          (safe_json_load (net url).content) obj_type (net url).content
          payload (net url).status) := by
  cases hch : already_assigned_check "is assigned to another network view"
      (safe_json_load (net url).content) with
  | error e =>
    simp [create_object, hv, hu, _validate_authorized, beq_iff_eq, h401, hst,
      hch, throw_eq, Bind.bind, Except.bind]
  | ok b =>
    cases b <;>
      simp [create_object, hv, hu, _validate_authorized, beq_iff_eq, h401,
        hst, hch, throw_eq, Bind.bind, Except.bind]

/-- C2 (amended): for a non-201 (non-401) create response, the error is
classified from the safely-parsed body: a body that fails to parse, or
parses to a falsy value, or is a truthy object whose string `text` lacks
the substring "is assigned to another network view", raises
`CannotCreateError`; a truthy object whose string `text` contains the
substring raises `MemberAlreadyAssignedError`; both carry the
safely-parsed body (or none), the object type, the raw content, the
original payload and the status code.  A truthy object body with no
`text` field, however, raises an unhandled `TypeError` instead of
`CannotCreateError` (the deviation that forces this amendment). -/
theorem create_object_error_classification (wapi_url : String) (net : Net)
    (obj_type : String) (payload : JSON) (return_fields : Option (List String))
    (url : String)
    (hv : _validate_obj_type_or_die obj_type = .ok ())
    (hu : _construct_url wapi_url obj_type
      (_build_query_params none return_fields) = .ok url)
    (h401 : (net url).status ≠ codes_UNAUTHORIZED)
    (hst : (net url).status ≠ codes_CREATED) :
    (∀ raw, (net url).content = .invalid raw →
      create_object wapi_url net obj_type payload return_fields =
        .error (.cannotCreate none obj_type (net url).content payload
          (net url).status)) ∧
    (∀ j, (net url).content = .json j → j.truthy = false →
      create_object wapi_url net obj_type payload return_fields =
        .error (.cannotCreate (some j) obj_type (net url).content payload
          (net url).status)) ∧
    (∀ j s, (net url).content = .json j → j.truthy = true →
      JSON.get "text" j = some (.str s) →
      hasSubstr s "is assigned to another network view" = true →
      create_object wapi_url net obj_type payload return_fields =
        .error (.memberAlreadyAssigned (some j) obj_type (net url).content
          payload (net url).status)) ∧
    (∀ j s, (net url).content = .json j → j.truthy = true →
      JSON.get "text" j = some (.str s) →
      hasSubstr s "is assigned to another network view" = false →
      create_object wapi_url net obj_type payload return_fields =
        .error (.cannotCreate (some j) obj_type (net url).content payload
          (net url).status)) ∧
    (∀ kvs, (net url).content = .json (.obj kvs) →
      (JSON.obj kvs).truthy = true →
      JSON.get "text" (.obj kvs) = none →
      create_object wapi_url net obj_type payload return_fields =
        .error (.typeError "argument of type NoneType is not iterable")) := by
  have hcc := create_object_cases wapi_url net obj_type payload return_fields
    url hv hu h401 hst
  refine ⟨?_, ?_, ?_, ?_, ?_⟩
  · intro raw hc
    rw [hcc, hc]
    simp [safe_json_load, already_assigned_check]
  · intro j hc h1
    rw [hcc, hc]
    simp [safe_json_load, already_assigned_check, h1]
  · intro j s hc h1 hget hsub
    obtain ⟨kvs, rfl⟩ : ∃ kvs, j = .obj kvs := by
      cases j <;> simp [JSON.get] at hget ⊢
    rw [hcc, hc]
    simp [safe_json_load, already_assigned_check, h1, hget, hsub]
  · intro j s hc h1 hget hsub
    obtain ⟨kvs, rfl⟩ : ∃ kvs, j = .obj kvs := by
      cases j <;> simp [JSON.get] at hget ⊢
    rw [hcc, hc]
    simp [safe_json_load, already_assigned_check, h1, hget, hsub]
  · intro kvs hc h1 hget
    rw [hcc, hc]
    simp [safe_json_load, already_assigned_check, h1, hget]

/-- Counterexample for C2 as stated: a 400 response whose JSON body has
no `text` field does not raise `CannotCreateError` — the code evaluates
`"…" in response.get('text')` with `None` and dies with `TypeError`. -/
theorem create_object_missing_text_counterexample :
    create_object "https://h/wapi/v2.5/" netNoText "network" (.obj []) none =
      .error (.typeError "argument of type NoneType is not iterable") ∧
    isCannotCreate (create_object "https://h/wapi/v2.5/" netNoText "network"
      (.obj []) none) = false :=
  ⟨rfl, rfl⟩

/-- Witness for C2: the member-already-assigned `text` yields
`MemberAlreadyAssignedError`, and an unparseable 400 body yields
`CannotCreateError` with no parsed body. -/
theorem create_object_error_classification_witness :
    create_object "https://h/wapi/v2.5/" netMember "network" (.obj []) none =
      .error (.memberAlreadyAssigned
        (some (.obj [("text",
          .str "Member 10.0.0.1 is assigned to another network view (default)")]))
        "network"
        (.json (.obj [("text",
          .str "Member 10.0.0.1 is assigned to another network view (default)")]))
        (.obj []) 400) ∧
    create_object "https://h/wapi/v2.5/" net404bad "network" (.obj []) none =
      .error (.cannotCreate none "network" (.invalid "<html>dead</html>")
        (.obj []) 404) :=
  ⟨(create_object_error_classification "https://h/wapi/v2.5/" netMember
      "network" (.obj []) none "https://h/wapi/v2.5/network" rfl rfl
      (by decide) (by decide)).2.2.1
      (.obj [("text",
        .str "Member 10.0.0.1 is assigned to another network view (default)")])
      "Member 10.0.0.1 is assigned to another network view (default)"
      rfl rfl rfl (by decide),
   (create_object_error_classification "https://h/wapi/v2.5/" net404bad
      "network" (.obj []) none "https://h/wapi/v2.5/network" rfl rfl
      (by decide) (by decide)).1 "<html>dead</html>" rfl⟩

end Infoblox
